import Mathlib

/-!
Verification of the `rust_core` native compute core of a prediction-market
HFT system.  The Rust sources under `src/rust_core/src` are shallowly
embedded below, component by component:

* `RustDecimal` — a model of the external `rust_decimal::Decimal` type as a
  pair (integer mantissa, decimal scale), with the arithmetic and the
  `to_string`-then-`parse` behaviour that the sources rely on.
* `Signer` — the EIP-712 type strings of `signer.rs` and `signer 2.rs`.
* `OrderBook2` — the `Decimal`-based book of `orderbook 2.rs`.
* `OrderBook1` — the `f64`-based book of `orderbook.rs` (floats are
  modelled as exact rationals; every claim proved about this path is
  about the algebraic structure of the code, not float rounding).
* `Graph1` / `Graph2` — the two correlation scanners.
* `NegRisk1` / `NegRisk2` — the two NegRisk miners.
* `Vulture1` / `Vulture2` — the two spread-capture scanners.

Machine integers (`u64`, `u32`, `i32`) are modelled as `Nat`/`Int`; the
sources never rely on wrap-around, only on parse-range checks, which are
modelled explicitly.
-/

namespace RustDecimal

/-- Model of `rust_decimal::Decimal`: the value is `m / 10 ^ s`.
`rust_decimal` stores a 96-bit unsigned mantissa with a sign and a scale
in `0..=28`; arithmetic keeps exact results when they fit and otherwise
reduces the scale with rounding.  `Decimal` equality and ordering compare
numeric values, while `to_string` prints exactly `s` fractional digits. -/
structure Dec where
  m : ℤ
  s : ℕ
  deriving Repr, DecidableEq

/-- Numeric value of a decimal. -/
def Dec.toRat (d : Dec) : ℚ := (d.m : ℚ) / (10 : ℚ) ^ d.s

/-- `Decimal::ZERO`. -/
def Dec.zero : Dec := ⟨0, 0⟩

/-- `Decimal::ONE`. -/
def Dec.one : Dec := ⟨1, 0⟩

/-- `Decimal::from(n)` for an integer `n`. -/
def Dec.ofInt (n : ℤ) : Dec := ⟨n, 0⟩

/-- Round an integer to the nearest multiple of 10, half away from zero,
and divide by 10 (the digit-dropping step `rust_decimal` uses when a
result does not fit in 96 bits / scale 28). -/
def roundDiv10 (n : ℤ) : ℤ :=
  if 0 ≤ n then (n + 5) / 10 else -((-n + 5) / 10)

/-- 2^96, the mantissa bound of `rust_decimal`. -/
def mantissaBound : ℕ := 2 ^ 96

/-- Drop digits (rounding half away from zero) until the mantissa fits in
96 bits and the scale is at most 28.  Mirrors `rust_decimal`'s rescale-on
-overflow behaviour for multiplication results. -/
def fit : ℤ → ℕ → Dec
  | m, 0 => ⟨m, 0⟩
  | m, s + 1 =>
    if 28 < s + 1 ∨ mantissaBound ≤ m.natAbs then fit (roundDiv10 m) s
    else ⟨m, s + 1⟩

/-- `Decimal` addition: exact, result scale = max of the operand scales
(no overflow occurs at the magnitudes used in this code base). -/
def Dec.add (a b : Dec) : Dec :=
  let s := max a.s b.s
  ⟨a.m * 10 ^ (s - a.s) + b.m * 10 ^ (s - b.s), s⟩

/-- `Decimal` subtraction: exact, result scale = max of the operand scales. -/
def Dec.sub (a b : Dec) : Dec :=
  let s := max a.s b.s
  ⟨a.m * 10 ^ (s - a.s) - b.m * 10 ^ (s - b.s), s⟩

/-- `Decimal` multiplication: exact product at scale `s₁ + s₂`, then digits
are dropped with rounding while the mantissa exceeds 96 bits or the scale
exceeds 28. -/
def Dec.mul (a b : Dec) : Dec := fit (a.m * b.m) (a.s + b.s)

/-- Round the fraction `n / d` (`d ≠ 0`) to an integer, half away from
zero. -/
def roundQuot (n d : ℤ) : ℤ :=
  let q : ℕ := (2 * n.natAbs + d.natAbs) / (2 * d.natAbs)
  if (0 ≤ n) = (0 ≤ d) then (q : ℤ) else -(q : ℤ)

/-- `Decimal` division (divisor nonzero in all uses).  The quotient of
`a / b` equals `n / d` with `n = a.m · 10^{b.s}` and `d = b.m · 10^{a.s}`.
The long division stops as soon as the remainder is zero, so a terminating
quotient gets the smallest sufficient scale; a non-terminating quotient is
rounded at scale 28 and then reduced until the mantissa fits. -/
def Dec.div (a b : Dec) : Dec :=
  let n : ℤ := a.m * 10 ^ b.s
  let d : ℤ := b.m * 10 ^ a.s
  match (List.range 29).find? (fun s => n * 10 ^ s % d = 0) with
  | some s => ⟨n * 10 ^ s / d, s⟩
  | none => fit (roundQuot (n * 10 ^ 28) d) 28

/-- Numeric strict order (`Decimal: Ord` rescales the mantissas and
compares them, i.e. compares values, not representations). -/
def Dec.lt (a b : Dec) : Bool := a.m * 10 ^ b.s < b.m * 10 ^ a.s

def Dec.le (a b : Dec) : Bool := a.m * 10 ^ b.s ≤ b.m * 10 ^ a.s

/-- Numeric equality of two decimals. -/
def Dec.eqv (a b : Dec) : Bool := a.m * 10 ^ b.s = b.m * 10 ^ a.s

/-- `Decimal::is_zero`. -/
def Dec.isZero (d : Dec) : Bool := d.m = 0

/-- `d.to_string().parse::<i32>()`.  `to_string` prints the mantissa with
exactly `s` fractional digits, so the string contains a decimal point
(and `parse` fails) whenever `s ≠ 0`; at scale 0 the parse succeeds iff
the value fits in an `i32`. -/
def Dec.parseI32 (d : Dec) : Option ℤ :=
  if d.s = 0 ∧ -(2 ^ 31) ≤ d.m ∧ d.m < 2 ^ 31 then some d.m else none

/-- `d.to_string().parse::<u32>()`: succeeds iff the printed string has no
decimal point and no sign, i.e. scale 0 and `0 ≤ m < 2^32`. -/
def Dec.parseU32 (d : Dec) : Option ℕ :=
  if d.s = 0 ∧ 0 ≤ d.m ∧ d.m < 2 ^ 32 then some d.m.toNat else none

/-- Sum of a list of decimals, as `Iterator::sum` (fold from `Decimal::ZERO`). -/
def Dec.sum (l : List Dec) : Dec := l.foldl Dec.add Dec.zero

end RustDecimal

namespace Signer

/-- The Order-struct EIP-712 type string hashed by `order_type_hash` in
`signer.rs` (note `uint256 taker,` in the seventh field). -/
def orderTypeStringV1 : String :=
  "Order(uint256 salt,address maker,address signer,address taker,uint256 tokenId,uint256 makerAmount,uint256 taker,uint256 expiration,uint256 nonce,uint256 feeRateBps,uint8 side,uint8 signatureType)"

/-- The Order-struct EIP-712 type string hashed inside `sign_order` in
`signer 2.rs`. -/
def orderTypeStringV2 : String :=
  "Order(uint256 salt,address maker,address signer,address taker,uint256 tokenId,uint256 makerAmount,uint256 takerAmount,uint256 expiration,uint256 nonce,uint256 feeRateBps,uint8 side,uint8 signatureType)"

/-- The canonical Order type string required by the exchange (spec §4.7). -/
def canonicalOrderTypeString : String :=
  "Order(uint256 salt,address maker,address signer,address taker,uint256 tokenId,uint256 makerAmount,uint256 takerAmount,uint256 expiration,uint256 nonce,uint256 feeRateBps,uint8 side,uint8 signatureType)"

/-- `order_type_hash` of `signer.rs`: keccak256 applied to the V1 string.
The hash itself is an external library call, kept abstract. -/
def orderTypeHashV1 (keccak : String → List ℕ) : List ℕ := keccak orderTypeStringV1

/-- The type hash computed inside `sign_order` of `signer 2.rs`. -/
def orderTypeHashV2 (keccak : String → List ℕ) : List ℕ := keccak orderTypeStringV2

end Signer

namespace OrderBook2

open RustDecimal

/-- One stored level of `OrderBookSide.levels : BTreeMap<Decimal,(Decimal,u32)>`. -/
structure Entry where
  price : Dec
  size : Dec
  count : ℕ
  deriving Repr, DecidableEq

/-- `BTreeMap::insert(price, (size, count))`: replace the value when a
numerically equal key is present (the original key object is kept),
otherwise insert in key order. -/
def obInsert (p sz : Dec) (c : ℕ) : List Entry → List Entry
  | [] => [⟨p, sz, c⟩]
  | e :: t =>
    if p.lt e.price then ⟨p, sz, c⟩ :: e :: t
    else if p.eqv e.price then ⟨e.price, sz, c⟩ :: t
    else e :: obInsert p sz c t

/-- `.entry(price).and_modify(|(s,c)| { *s = size; *c += 1 }).or_insert((size,1))`. -/
def obModifyOrInsert (p sz : Dec) : List Entry → List Entry
  | [] => [⟨p, sz, 1⟩]
  | e :: t =>
    if p.lt e.price then ⟨p, sz, 1⟩ :: e :: t
    else if p.eqv e.price then ⟨e.price, sz, e.count + 1⟩ :: t
    else e :: obModifyOrInsert p sz t

/-- One side of the book (`OrderBookSide` in `orderbook 2.rs`), the map
kept as a list sorted ascending by price. -/
structure Side where
  levels : List Entry
  deriving Repr, DecidableEq

/-- `OrderBookSide::apply_delta`: zero size removes the level, otherwise
upsert (updating bumps the order count). -/
def Side.applyDelta (side : Side) (p sz : Dec) : Side :=
  if sz.isZero then ⟨side.levels.filter (fun e => !(e.price.eqv p))⟩
  else ⟨obModifyOrInsert p sz side.levels⟩

/-- `OrderBookSide::best_price`: last key for bids, first key for asks. -/
def Side.bestPrice (side : Side) (isBid : Bool) : Option Dec :=
  if isBid then (side.levels.map (·.price)).getLast?
  else (side.levels.map (·.price)).head?

structure PriceLevel where
  price : Dec
  size : Dec
  orderCount : ℕ
  deriving Repr, DecidableEq

structure Snapshot where
  tokenId : String
  bids : List PriceLevel
  asks : List PriceLevel
  timestamp : ℕ
  seq : ℕ
  deriving Repr, DecidableEq

structure PriceUpdate where
  price : Dec
  size : Dec
  deriving Repr, DecidableEq

structure Delta where
  tokenId : String
  bidUpdates : List PriceUpdate
  askUpdates : List PriceUpdate
  timestamp : ℕ
  seq : ℕ
  deriving Repr, DecidableEq

/-- `OrderBook` of `orderbook 2.rs` (lock wrappers dropped). -/
structure OrderBook where
  tokenId : String
  bids : Side
  asks : Side
  lastUpdateTs : ℕ
  seq : ℕ
  deriving Repr, DecidableEq

/-- `OrderBook::new`. -/
def OrderBook.new (tokenId : String) : OrderBook := ⟨tokenId, ⟨[]⟩, ⟨[]⟩, 0, 0⟩

/-- `OrderBook::from_snapshot`: both sides rebuilt by plain inserts (note:
level sizes are inserted unfiltered), sequence and timestamp taken from
the snapshot. -/
def OrderBook.fromSnapshot (tokenId : String) (snap : Snapshot) : OrderBook :=
  { tokenId := tokenId
    bids := ⟨snap.bids.foldl (fun l lv => obInsert lv.price lv.size 1 l) []⟩
    asks := ⟨snap.asks.foldl (fun l lv => obInsert lv.price lv.size 1 l) []⟩
    lastUpdateTs := snap.timestamp
    seq := snap.seq }

inductive OrderBookError where
  | staleUpdate (expected received : ℕ)
  | sequenceGap (expected received : ℕ)
  | tokenNotFound (tokenId : String)
  deriving Repr, DecidableEq

/-- `OrderBook::apply_delta`: sequence validation, then both sides updated,
then sequence and timestamp set.  The post-state is returned alongside the
result to model the `&mut self` discipline (errors leave the book as it
was). -/
def OrderBook.applyDelta (b : OrderBook) (d : Delta) :
    Except OrderBookError Unit × OrderBook :=
  if d.seq ≤ b.seq then
    (.error (.staleUpdate (b.seq + 1) d.seq), b)
  else if b.seq + 1 < d.seq then
    (.error (.sequenceGap (b.seq + 1) d.seq), b)
  else
    let bids := d.bidUpdates.foldl (fun s u => s.applyDelta u.price u.size) b.bids
    let asks := d.askUpdates.foldl (fun s u => s.applyDelta u.price u.size) b.asks
    (.ok (), { b with
               bids := bids
               asks := asks
               seq := d.seq
               lastUpdateTs := d.timestamp })

/-- `OrderBookManager`: the token → book map as an association list. -/
structure Manager where
  books : List (String × OrderBook)
  deriving Repr, DecidableEq

/-- Map insert keyed by token id (replace or append), as `DashMap::insert`. -/
def mgrInsert (k : String) (b : OrderBook) : List (String × OrderBook) → List (String × OrderBook)
  | [] => [(k, b)]
  | e :: t => if e.1 = k then (k, b) :: t else e :: mgrInsert k b t

/-- `OrderBookManager::get`. -/
def Manager.get (m : Manager) (tokenId : String) : Option OrderBook :=
  (m.books.find? (fun e => e.1 = tokenId)).map (·.2)

/-- `OrderBookManager::load_snapshot`: builds a fresh book from the
snapshot and stores it under the snapshot's token id. -/
def Manager.loadSnapshot (m : Manager) (snap : Snapshot) : Manager :=
  ⟨mgrInsert snap.tokenId (OrderBook.fromSnapshot snap.tokenId snap) m.books⟩

/-- `OrderBookManager::apply_delta`: `TokenNotFound` when no book exists
for the delta's token (no book is created), else the book's own
`apply_delta`. -/
def Manager.applyDelta (m : Manager) (d : Delta) :
    Except OrderBookError Unit × Manager :=
  match m.books.find? (fun e => e.1 = d.tokenId) with
  | none => (.error (.tokenNotFound d.tokenId), m)
  | some e =>
    let (r, b2) := e.2.applyDelta d
    (r, ⟨mgrInsert e.1 b2 m.books⟩)

/-- `PyOrderbook::spread_bps` (`orderbook 2.rs`, lines 350-363): looks the
book up, requires both best prices, returns `None` for a zero bid, then
`((ask - bid) / bid * 10000).to_string().parse::<u32>().ok()`. -/
def pySpreadBps (m : Manager) (tokenId : String) : Option ℕ := do
  let book ← m.get tokenId
  let bid ← book.bids.bestPrice true
  let ask ← book.asks.bestPrice false
  if bid.isZero then none
  else (Dec.mul (Dec.div (Dec.sub ask bid) bid) (Dec.ofInt 10000)).parseU32

/-- A book-level update step: replace the book from a snapshot, or apply a
sequenced delta. -/
inductive BookOp where
  | snapshot (tokenId : String) (snap : Snapshot)
  | delta (d : Delta)
  deriving Repr, DecidableEq

/-- Run a sequence of snapshot loads / delta applications on one book. -/
def runOps (b : OrderBook) : List BookOp → OrderBook
  | [] => b
  | .snapshot tid snap :: t => runOps (OrderBook.fromSnapshot tid snap) t
  | .delta d :: t => runOps (b.applyDelta d).2 t

end OrderBook2

namespace OrderBook1

/-- `f64 as u64` saturating cast of a rational (Rust float-to-int casts
saturate; negative values go to 0). -/
def toU64 (q : ℚ) : ℕ := if q < 0 then 0 else min (2 ^ 64 - 1) ⌊q⌋.toNat

/-- `OrderbookHalf::price_to_key`: 6-decimal fixed key, inverted for bids
so that the best (highest) bid has the smallest key. -/
def priceToKey (isBid : Bool) (price : ℚ) : ℕ :=
  if isBid then 2 ^ 64 - 1 - toU64 (price * 1000000)
  else toU64 (price * 1000000)

/-- `OrderbookHalf::key_to_price`. -/
def keyToPrice (isBid : Bool) (key : ℕ) : ℚ :=
  if isBid then ((2 ^ 64 - 1 - key : ℕ) : ℚ) / 1000000
  else (key : ℚ) / 1000000

/-- A price level of `orderbook.rs` (`f64` fields modelled as `ℚ`). -/
structure PriceLevel where
  price : ℚ
  size : ℚ
  orderCount : ℕ
  deriving Repr, DecidableEq

/-- `BTreeMap<u64, PriceLevel>::insert`: replace or insert in key order. -/
def keyInsert (k : ℕ) (v : PriceLevel) : List (ℕ × PriceLevel) → List (ℕ × PriceLevel)
  | [] => [(k, v)]
  | e :: t =>
    if k < e.1 then (k, v) :: e :: t
    else if k = e.1 then (k, v) :: t
    else e :: keyInsert k v t

/-- `OrderbookHalf`: one side of the `f64` book. -/
structure Half where
  levels : List (ℕ × PriceLevel)
  isBid : Bool
  deriving Repr, DecidableEq

/-- `OrderbookHalf::apply_delta`: non-positive size removes the level at
that price's key, positive size upserts a fresh level with count 1. -/
def Half.applyDelta (h : Half) (price size : ℚ) : Half :=
  let key := priceToKey h.isBid price
  if size ≤ 0 then ⟨h.levels.filter (fun e => e.1 ≠ key), h.isBid⟩
  else ⟨keyInsert key ⟨price, size, 1⟩ h.levels, h.isBid⟩

/-- `OrderbookHalf::best_price`: the smallest stored key (first of the
`BTreeMap` iteration), mapped back to a price. -/
def Half.bestPrice (h : Half) : Option ℚ :=
  ((h.levels.map (·.1)).min?).map (keyToPrice h.isBid)

/-- `OrderbookDelta` of `orderbook.rs` (side carried as a string). -/
structure Delta where
  price : ℚ
  size : ℚ
  side : String
  deriving Repr, DecidableEq

/-- `Orderbook` of `orderbook.rs` (lock wrappers dropped). -/
structure Orderbook where
  tokenId : String
  bids : Half
  asks : Half
  lastUpdateTs : ℕ
  deriving Repr, DecidableEq

/-- `Orderbook::new`. -/
def Orderbook.new (tokenId : String) : Orderbook :=
  ⟨tokenId, ⟨[], true⟩, ⟨[], false⟩, 0⟩

/-- ASCII lowercase of a string (`str::to_lowercase` on the slugs and side
tags used here, which are ASCII). -/
def lowerStr (s : String) : String := ⟨s.data.map Char.toLower⟩

/-- `Orderbook::apply_delta`: dispatch on the side tag; unknown tags are
ignored. -/
def Orderbook.applyDelta (b : Orderbook) (d : Delta) : Orderbook :=
  let tag := lowerStr d.side
  if tag = "bid" ∨ tag = "buy" then { b with bids := b.bids.applyDelta d.price d.size }
  else if tag = "ask" ∨ tag = "sell" then { b with asks := b.asks.applyDelta d.price d.size }
  else b

/-- `Orderbook::spread_bps`: needs both best prices; `None` unless the mid
is strictly positive, else `(ask − bid) / mid × 10000`. -/
def Orderbook.spreadBps (b : Orderbook) : Option ℚ := do
  let bid ← b.bids.bestPrice
  let ask ← b.asks.bestPrice
  let mid := (bid + ask) / 2
  if 0 < mid then pure ((ask - bid) / mid * 10000) else none

/-- `Orderbook::mid_price`. -/
def Orderbook.midPrice (b : Orderbook) : Option ℚ := do
  let bid ← b.bids.bestPrice
  let ask ← b.asks.bestPrice
  pure ((bid + ask) / 2)

/-- `OrderbookManager` of `orderbook.rs`. -/
structure Manager where
  books : List (String × Orderbook)
  deriving Repr, DecidableEq

/-- Map insert (replace or append) keyed by token id. -/
def mgrInsert (k : String) (b : Orderbook) : List (String × Orderbook) → List (String × Orderbook)
  | [] => [(k, b)]
  | e :: t => if e.1 = k then (k, b) :: t else e :: mgrInsert k b t

/-- `OrderbookManager::get`. -/
def Manager.get (m : Manager) (tokenId : String) : Option Orderbook :=
  (m.books.find? (fun e => e.1 = tokenId)).map (·.2)

/-- `OrderbookManager::get_or_create`: returns the existing book or
creates (and stores) an empty one. -/
def Manager.getOrCreate (m : Manager) (tokenId : String) : Orderbook × Manager :=
  match m.books.find? (fun e => e.1 = tokenId) with
  | some e => (e.2, m)
  | none => (Orderbook.new tokenId, ⟨mgrInsert tokenId (Orderbook.new tokenId) m.books⟩)

/-- `OrderbookManager::apply_delta` (`orderbook.rs`, lines 227-230): gets
or creates the book, then applies the delta — it cannot fail and it
creates a book when none exists. -/
def Manager.applyDelta (m : Manager) (tokenId : String) (d : Delta) : Manager :=
  let (book, m2) := m.getOrCreate tokenId
  ⟨mgrInsert tokenId (book.applyDelta d) m2.books⟩

end OrderBook1

namespace RustStr

/-- ASCII substring test (`str::contains` on the ASCII slugs used here). -/
def containsSub (hay needle : List Char) : Bool :=
  hay.tails.any (fun t => needle.isPrefixOf t)

def strContains (hay needle : String) : Bool := containsSub hay.data needle.data

/-- `str::starts_with`. -/
def strStarts (hay needle : String) : Bool := needle.data.isPrefixOf hay.data

end RustStr

namespace Graph1

/-- Node of `graph.rs` (`CorrelationDAG`). -/
structure Node where
  marketId : String
  description : String
  deriving Repr, DecidableEq

/-- Edge of `graph.rs`; `correlation` is an `f64`, modelled as `ℚ`. -/
structure Edge where
  parentId : String
  childId : String
  correlation : ℚ
  deriving Repr, DecidableEq

/-- `Violation` record of `graph.rs`. -/
structure Violation where
  parentId : String
  childId : String
  parentPrice : ℚ
  childPrice : ℚ
  correlation : ℚ
  mispricing : ℚ
  mispricingBps : ℚ
  action : String
  deriving Repr, DecidableEq

/-- `f64::clamp(0.0, 1.0)` on a non-NaN value. -/
def clamp01 (c : ℚ) : ℚ := if c < 0 then 0 else if 1 < c then 1 else c

/-- `CorrelationDAG`: a `HashMap` of nodes and an insertion-ordered edge
list. -/
structure CorrelationDAG where
  nodes : List (String × Node)
  edges : List Edge
  deriving Repr, DecidableEq

def CorrelationDAG.empty : CorrelationDAG := ⟨[], []⟩

/-- `HashMap::insert` keyed by market id (replace or append). -/
def nodeInsert (k : String) (n : Node) : List (String × Node) → List (String × Node)
  | [] => [(k, n)]
  | e :: t => if e.1 = k then (k, n) :: t else e :: nodeInsert k n t

/-- `CorrelationDAG::add_node`. -/
def CorrelationDAG.addNode (g : CorrelationDAG) (marketId description : String) :
    CorrelationDAG :=
  { g with nodes := nodeInsert marketId ⟨marketId, description⟩ g.nodes }

/-- `CorrelationDAG::add_edge`: pushes the edge with the correlation
clamped into `[0, 1]`. -/
def CorrelationDAG.addEdge (g : CorrelationDAG) (parentId childId : String)
    (correlation : ℚ) : CorrelationDAG :=
  { g with edges := g.edges ++ [⟨parentId, childId, clamp01 correlation⟩] }

/-- Price lookup (`HashMap<String, f64>::get`). -/
def lookupPrice (prices : List (String × ℚ)) (k : String) : Option ℚ :=
  (prices.find? (fun e => e.1 = k)).map (·.2)

/-- `CorrelationDAG::scan`: the child-underpriced framing — a violation is
emitted when `child < parent × correlation`, with
`mispricing_bps = (expected_min − child) / child × 10000`. -/
def CorrelationDAG.scan (g : CorrelationDAG) (prices : List (String × ℚ)) :
    List Violation :=
  g.edges.filterMap (fun edge =>
    match lookupPrice prices edge.parentId, lookupPrice prices edge.childId with
    | some pp, some cp =>
      let expectedMin := pp * edge.correlation
      if cp < expectedMin then
        let mispricing := expectedMin - cp
        some ⟨edge.parentId, edge.childId, pp, cp, edge.correlation, mispricing,
              mispricing / cp * 10000,
              "BUY " ++ edge.childId ++ " (underpriced) / SELL " ++ edge.parentId
                ++ " (overpriced)"⟩
      else none
    | _, _ => none)

/-- A graph-construction step (`add_node` or `add_edge`). -/
inductive GraphOp where
  | addNode (marketId description : String)
  | addEdge (parentId childId : String) (correlation : ℚ)
  deriving Repr, DecidableEq

/-- Run a sequence of construction steps on a graph. -/
def runGraphOps (g : CorrelationDAG) : List GraphOp → CorrelationDAG
  | [] => g
  | .addNode i d :: t => runGraphOps (g.addNode i d) t
  | .addEdge p c w :: t => runGraphOps (g.addEdge p c w) t

end Graph1

namespace RustDecimal

/-- `Decimal::to_string` (Display): the mantissa with exactly `s`
fractional digits. -/
def Dec.str (d : Dec) : String :=
  if d.s = 0 then toString d.m
  else
    let sign := if d.m < 0 then "-" else ""
    let n := d.m.natAbs
    let intPart := toString (n / 10 ^ d.s)
    let fracDigits := toString (n % 10 ^ d.s)
    let pad := String.mk (List.replicate (d.s - fracDigits.length) '0')
    sign ++ intPart ++ "." ++ pad ++ fracDigits

end RustDecimal

namespace Graph2

open RustDecimal

/-- `MarketRelation` of `graph 2.rs`. -/
inductive MarketRelation where
  | implies
  | exclusive
  | containsRel
  deriving Repr, DecidableEq

/-- `MarketNode` of `graph 2.rs`. -/
structure MarketNode where
  marketId : String
  tokenId : String
  description : String
  currentPrice : Option Dec
  deriving Repr, DecidableEq

/-- `MarketEdge` of `graph 2.rs` (`weight: f64` modelled as `ℚ`). -/
structure MarketEdge where
  relation : MarketRelation
  weight : ℚ
  deriving Repr, DecidableEq

inductive ViolationType where
  | monotonicity
  | subset
  | exclusivity
  deriving Repr, DecidableEq

/-- `CorrelationViolation` of `graph 2.rs`. -/
structure CorrelationViolation where
  violationType : ViolationType
  parentMarket : String
  childMarket : String
  parentPrice : Dec
  childPrice : Dec
  expectedRelation : String
  arbitrageEdgeBps : ℤ
  deriving Repr, DecidableEq

/-- `DutchBookTrade` of `graph 2.rs`. -/
structure DutchBookTrade where
  longMarket : String
  longTokenId : String
  shortMarket : String
  shortTokenId : String
  expectedProfitBps : ℤ
  deriving Repr, DecidableEq

inductive ScannerError where
  | marketNotFound (id : String)
  deriving Repr, DecidableEq

/-- `CorrelationScanner`: the petgraph `DiGraph` kept as a node arena
(indices are positions) plus the insertion-ordered edge list
`(source index, target index, weight)`. -/
structure Scanner where
  nodes : List MarketNode
  edges : List (ℕ × ℕ × MarketEdge)
  minEdgeBps : ℤ
  deriving Repr, DecidableEq

/-- `CorrelationScanner::new`. -/
def Scanner.new (minEdgeBps : ℤ) : Scanner := ⟨[], [], minEdgeBps⟩

/-- `CorrelationScanner::add_market`: an already-known market id only gets
its price refreshed; a new market is appended to the arena. -/
def Scanner.addMarket (s : Scanner) (n : MarketNode) : Scanner :=
  if s.nodes.any (fun x => x.marketId = n.marketId) then
    { s with nodes := s.nodes.map (fun x =>
        if x.marketId = n.marketId then { x with currentPrice := n.currentPrice } else x) }
  else { s with nodes := s.nodes ++ [n] }

/-- Index lookup through `market_to_node`. -/
def Scanner.indexOf (s : Scanner) (marketId : String) : Option ℕ :=
  s.nodes.findIdx? (fun x => x.marketId = marketId)

/-- `CorrelationScanner::add_relationship`: both endpoints must already be
registered; on success the edge is appended, on failure the graph is left
unchanged. -/
def Scanner.addRelationship (s : Scanner) (parentId childId : String)
    (relation : MarketRelation) (weight : ℚ) : Scanner × Option ScannerError :=
  match s.indexOf parentId with
  | none => (s, some (.marketNotFound parentId))
  | some pi_ =>
    match s.indexOf childId with
    | none => (s, some (.marketNotFound childId))
    | some ci_ => ({ s with edges := s.edges ++ [(pi_, ci_, ⟨relation, weight⟩)] }, none)

/-- `CorrelationScanner::update_price`. -/
def Scanner.updatePrice (s : Scanner) (marketId : String) (price : Dec) : Scanner :=
  { s with nodes := s.nodes.map (fun x =>
      if x.marketId = marketId then { x with currentPrice := some price } else x) }

/-- `CorrelationScanner::check_edge`: `Implies`/`Contains` edges with
`child_price > parent_price` produce a violation whose bps field is
`((cp − pp) / pp × 10000).to_string().parse::<i32>().unwrap_or(0)`. -/
def Scanner.checkEdge (s : Scanner) (parentIdx childIdx : ℕ) (edge : MarketEdge) :
    Option CorrelationViolation := do
  let parent ← s.nodes[parentIdx]?
  let child ← s.nodes[childIdx]?
  let pp ← parent.currentPrice
  let cp ← child.currentPrice
  if (edge.relation = .implies ∨ edge.relation = .containsRel) ∧ pp.lt cp then
    let bps := (((cp.sub pp).div pp).mul (Dec.ofInt 10000)).parseI32.getD 0
    let vt := if edge.relation = .implies then ViolationType.monotonicity
              else ViolationType.subset
    pure ⟨vt, parent.marketId, child.marketId, pp, cp, "P(Child) <= P(Parent)", bps⟩
  else none

/-- `CorrelationScanner::check_exclusivity` over a sibling index set. -/
def Scanner.checkExclusivity (s : Scanner) (nodeIdxs : List ℕ) :
    Option CorrelationViolation :=
  let prices : List (String × Dec) := nodeIdxs.filterMap (fun idx =>
    (s.nodes[idx]?).bind (fun n => n.currentPrice.map (fun p => (n.marketId, p))))
  if prices.length < 2 then none
  else
    let sum := Dec.sum (prices.map (·.2))
    if Dec.one.lt sum then
      let bps := ((sum.sub Dec.one).mul (Dec.ofInt 10000)).parseI32.getD 0
      let sorted := prices.mergeSort (fun a b => b.2.le a.2)
      some ⟨.exclusivity,
            ((sorted.get? 0).map (·.1)).getD "",
            ((sorted.get? 1).map (·.1)).getD "",
            ((sorted.get? 0).map (·.2)).getD Dec.zero,
            ((sorted.get? 1).map (·.2)).getD Dec.zero,
            "Sum <= 1.00, actual: " ++ sum.str, bps⟩
    else none

/-- Outgoing neighbors of a node.  petgraph's adjacency list links each
node's edges newest-first, so `neighbors_directed(..., Outgoing)` yields
targets in reverse insertion order. -/
def Scanner.neighborsOut (s : Scanner) (i : ℕ) : List ℕ :=
  ((s.edges.filter (fun e => e.1 = i)).map (fun e => e.2.1)).reverse

/-- `CorrelationScanner::scan_violations`: all edges in insertion order,
then all nodes' sibling sets, each violation filtered by `min_edge_bps`. -/
def Scanner.scanViolations (s : Scanner) : List CorrelationViolation :=
  let edgeViols := s.edges.filterMap (fun e =>
    (s.checkEdge e.1 e.2.1 e.2.2).bind (fun v =>
      if s.minEdgeBps ≤ v.arbitrageEdgeBps then some v else none))
  let nodeViols := (List.range s.nodes.length).filterMap (fun i =>
    let children := s.neighborsOut i
    if 1 < children.length then
      (s.checkExclusivity children).bind (fun v =>
        if s.minEdgeBps ≤ v.arbitrageEdgeBps then some v else none)
    else none)
  edgeViols ++ nodeViols

/-- `CorrelationScanner::generate_dutch_book`: LONG the parent market,
SHORT the child market, profit = the violation's edge bps. -/
def Scanner.generateDutchBook (s : Scanner) (v : CorrelationViolation) :
    Option DutchBookTrade := do
  let pn ← s.nodes.find? (fun n => n.marketId = v.parentMarket)
  let cn ← s.nodes.find? (fun n => n.marketId = v.childMarket)
  pure ⟨v.parentMarket, pn.tokenId, v.childMarket, cn.tokenId, v.arbitrageEdgeBps⟩

end Graph2

namespace NegRisk2

open RustDecimal

/-- `NegRiskMarket` of `negrisk 2.rs`. -/
structure NegRiskMarket where
  conditionId : String
  tokenIds : List String
  outcomeNames : List String
  deriving Repr, DecidableEq

inductive ArbType where
  | mintAndSell
  | buyAndMerge
  deriving Repr, DecidableEq

/-- `ArbLeg` of `negrisk 2.rs`. -/
structure ArbLeg where
  tokenId : String
  outcomeName : String
  side : String
  price : Dec
  size : Dec
  deriving Repr, DecidableEq

/-- `NegRiskArbitrage` of `negrisk 2.rs`. -/
structure NegRiskArbitrage where
  arbType : ArbType
  conditionId : String
  expectedProfitBps : ℤ
  totalCost : Dec
  totalRevenue : Dec
  legs : List ArbLeg
  deriving Repr, DecidableEq

/-- `NegRiskConfig` of `negrisk 2.rs` (defaults: 30 / 1000 / 0). -/
structure NegRiskConfig where
  minArbBps : ℤ
  maxPositionUsd : Dec
  feeBps : ℤ
  deriving Repr, DecidableEq

def NegRiskConfig.default : NegRiskConfig := ⟨30, Dec.ofInt 1000, 0⟩

/-- `NegRiskMiner::check_mint_and_sell`, over the collected
`(token_id, outcome_name, best_bid)` triples. -/
def checkMintAndSell (cfg : NegRiskConfig) (conditionId : String)
    (bids : List (String × String × Option Dec)) : Option NegRiskArbitrage :=
  if !(bids.all (fun b => b.2.2.isSome)) then none
  else
    let sumBids := Dec.sum (bids.filterMap (·.2.2))
    let feeAdjustment := (Dec.ofInt cfg.feeBps).div (Dec.ofInt 10000)
    let threshold := Dec.one.add feeAdjustment
    if sumBids.le threshold then none
    else
      let mintCost := Dec.one
      let sellRevenue := sumBids.mul (Dec.one.sub feeAdjustment)
      let profit := sellRevenue.sub mintCost
      let profitBps := ((profit.div mintCost).mul (Dec.ofInt 10000)).parseI32.getD 0
      let legs := bids.filterMap (fun b =>
        b.2.2.map (fun bid => ArbLeg.mk b.1 b.2.1 "SELL" bid Dec.one))
      some ⟨.mintAndSell, conditionId, profitBps, mintCost, sellRevenue, legs⟩

/-- `NegRiskMiner::check_buy_and_merge`, over the collected
`(token_id, outcome_name, best_ask)` triples. -/
def checkBuyAndMerge (cfg : NegRiskConfig) (conditionId : String)
    (asks : List (String × String × Option Dec)) : Option NegRiskArbitrage :=
  if !(asks.all (fun a => a.2.2.isSome)) then none
  else
    let sumAsks := Dec.sum (asks.filterMap (·.2.2))
    let feeAdjustment := (Dec.ofInt cfg.feeBps).div (Dec.ofInt 10000)
    let threshold := Dec.one.sub feeAdjustment
    if threshold.le sumAsks then none
    else
      let buyCost := sumAsks.mul (Dec.one.add feeAdjustment)
      let mergeRevenue := Dec.one
      let profit := mergeRevenue.sub buyCost
      let profitBps := ((profit.div buyCost).mul (Dec.ofInt 10000)).parseI32.getD 0
      let legs := asks.filterMap (fun a =>
        a.2.2.map (fun ask => ArbLeg.mk a.1 a.2.1 "BUY" ask Dec.one))
      some ⟨.buyAndMerge, conditionId, profitBps, buyCost, mergeRevenue, legs⟩

/-- The per-outcome collection loop at the top of
`NegRiskMiner::check_market`: token id, outcome name (index fallback),
best bid and best ask from the manager's book (if any). -/
def collectTops (mgr : OrderBook2.Manager) (market : NegRiskMarket) :
    List (String × String × Option Dec × Option Dec) :=
  market.tokenIds.enum.map (fun p =>
    let name := (market.outcomeNames.get? p.1).getD ("Outcome " ++ toString p.1)
    let book := mgr.get p.2
    (p.2, name, book.bind (fun b => b.bids.bestPrice true),
      book.bind (fun b => b.asks.bestPrice false)))

/-- `NegRiskMiner::check_market`: mint-and-sell first, then buy-and-merge,
each accepted only when its profit bps reaches `min_arb_bps`. -/
def checkMarket (cfg : NegRiskConfig) (mgr : OrderBook2.Manager)
    (market : NegRiskMarket) : Option NegRiskArbitrage :=
  let tops := collectTops mgr market
  let bestBids := tops.map (fun t => (t.1, t.2.1, t.2.2.1))
  let bestAsks := tops.map (fun t => (t.1, t.2.1, t.2.2.2))
  let afterMint :=
    match checkMintAndSell cfg market.conditionId bestBids with
    | some arb => if cfg.minArbBps ≤ arb.expectedProfitBps then some arb else none
    | none => none
  match afterMint with
  | some arb => some arb
  | none =>
    match checkBuyAndMerge cfg market.conditionId bestAsks with
    | some arb => if cfg.minArbBps ≤ arb.expectedProfitBps then some arb else none
    | none => none

end NegRisk2

namespace NegRisk1

/-- `Opportunity` of `negrisk.rs` (`f64` fields modelled as `ℚ`). -/
structure Opportunity where
  opportunityType : String
  conditionId : String
  prices : List ℚ
  sumBids : ℚ
  sumAsks : ℚ
  profitGross : ℚ
  profitNet : ℚ
  profitBps : ℚ
  isProfitable : Bool
  deriving Repr, DecidableEq

/-- `NegRiskConfig` of `negrisk.rs`: hardcoded 2% round-trip fee default. -/
structure NegRiskConfig where
  fee : ℚ
  minProfitBps : ℚ
  maxNotional : ℚ
  deriving Repr, DecidableEq

def NegRiskConfig.default : NegRiskConfig := ⟨2 / 100, 10, 1000⟩

/-- `NegRisk::scan` of `negrisk.rs`. -/
def scan (cfg : NegRiskConfig) (conditionId : String) (bids asks : List ℚ) :
    Opportunity :=
  let sumBids := bids.foldl (· + ·) 0
  let sumAsks := asks.foldl (· + ·) 0
  let mintThreshold := 1 + cfg.fee
  if mintThreshold < sumBids then
    let profitGross := sumBids - 1
    let profitNet := profitGross - cfg.fee
    let profitBps := profitNet * 10000
    ⟨"MintAndSell", conditionId, bids, sumBids, sumAsks, profitGross, profitNet,
     profitBps, decide (cfg.minProfitBps ≤ profitBps)⟩
  else
    let mergeThreshold := 1 - cfg.fee
    if sumAsks < mergeThreshold then
      let profitGross := 1 - sumAsks
      let profitNet := profitGross - cfg.fee
      let profitBps := profitNet * 10000
      ⟨"BuyAndMerge", conditionId, asks, sumBids, sumAsks, profitGross, profitNet,
       profitBps, decide (cfg.minProfitBps ≤ profitBps)⟩
    else
      ⟨"None", conditionId, [], sumBids, sumAsks, 0, 0, 0, false⟩

end NegRisk1

namespace Vulture

open RustStr

/-- `MarketOpportunity` (same record in `vulture.rs` and `vulture 2.rs`,
`f64` fields modelled as `ℚ`). -/
structure MarketOpportunity where
  marketSlug : String
  conditionId : String
  spreadBps : ℚ
  bestBid : ℚ
  bestAsk : ℚ
  midPrice : ℚ
  isCrypto15min : Bool
  recommendedSide : String
  recommendedPrice : ℚ
  usePostOnly : Bool
  deriving Repr, DecidableEq

/-- `VultureConfig` (identical defaults in both variants). -/
structure VultureConfig where
  minSpreadBps : ℚ
  maxSpreadBps : ℚ
  minMidPrice : ℚ
  edgeFraction : ℚ
  forcePostOnly : Bool
  deriving Repr, DecidableEq

/-- `VultureConfig::new`: 50 bps / 500 bps / 0.05 / 0.25 / false. -/
def VultureConfig.default : VultureConfig := ⟨50, 500, 5 / 100, 25 / 100, false⟩

/-- ASCII lowercase of a slug. -/
def lower (s : String) : String := ⟨s.data.map Char.toLower⟩

/-- `Vulture::is_15min_crypto` of `vulture.rs`: a 15-minute pattern plus
any crypto token substring. -/
def is15minCryptoV1 (marketSlug : String) : Bool :=
  let slug := lower marketSlug
  let cryptos := ["btc", "bitcoin", "eth", "ethereum", "sol", "solana", "xrp",
                  "doge", "bnb", "ada", "avax", "matic", "link"]
  let is15min := strContains slug "15m" || strContains slug "15-min" ||
                 strContains slug "15min"
  is15min && cryptos.any (fun c => strContains slug c)

/-- Crypto name list of `is_15min_crypto_market` in `vulture 2.rs`. -/
def cryptoPrefixesV2 : List String :=
  ["btc", "bitcoin", "eth", "ethereum", "sol", "solana", "xrp", "ripple",
   "doge", "dogecoin", "bnb", "binance", "ada", "cardano", "avax", "avalanche",
   "matic", "polygon", "link", "chainlink", "crypto"]

/-- `is_15min_crypto_market` of `vulture 2.rs`: a 15-minute pattern plus a
crypto name as slug start or as a `-name-` component. -/
def is15minCryptoV2 (marketSlug : String) : Bool :=
  let slug := lower marketSlug
  let is15min := strContains slug "15m" || strContains slug "15-min" ||
                 strContains slug "15min" || strContains slug "fifteen-min"
  if !is15min then false
  else cryptoPrefixesV2.any (fun p =>
    strStarts slug p || strContains slug ("-" ++ p ++ "-"))

/-- `Vulture::scan` of `vulture 2.rs` (lines 132-189): input validation,
mid filter, spread-band filter, then the entry price
`bid + spread × edge_fraction`, BUY below mid, POST_ONLY for 15-minute
crypto slugs or when forced. -/
def scanV2 (cfg : VultureConfig) (marketSlug conditionId : String)
    (bestBid bestAsk : ℚ) : Option MarketOpportunity :=
  if bestBid ≤ 0 ∨ bestAsk ≤ 0 ∨ bestAsk ≤ bestBid then none
  else
    let midPrice := (bestBid + bestAsk) / 2
    if midPrice < cfg.minMidPrice then none
    else
      let spread := bestAsk - bestBid
      let spreadBps := spread / midPrice * 10000
      if spreadBps < cfg.minSpreadBps ∨ cfg.maxSpreadBps < spreadBps then none
      else
        let isCrypto := is15minCryptoV2 marketSlug
        let usePostOnly := isCrypto || cfg.forcePostOnly
        let edge := spread * cfg.edgeFraction
        let recommendedPrice := bestBid + edge
        let recommendedSide := if recommendedPrice < midPrice then "BUY" else "SELL"
        some ⟨marketSlug, conditionId, spreadBps, bestBid, bestAsk, midPrice,
              isCrypto, recommendedSide, recommendedPrice, usePostOnly⟩

/-- `Vulture::scan` of `vulture.rs` (lines 96-116): identical pipeline,
with that file's own slug classifier. -/
def scanV1 (cfg : VultureConfig) (marketSlug conditionId : String)
    (bestBid bestAsk : ℚ) : Option MarketOpportunity :=
  if bestBid ≤ 0 ∨ bestAsk ≤ 0 ∨ bestAsk ≤ bestBid then none
  else
    let midPrice := (bestBid + bestAsk) / 2
    if midPrice < cfg.minMidPrice then none
    else
      let spread := bestAsk - bestBid
      let spreadBps := spread / midPrice * 10000
      if spreadBps < cfg.minSpreadBps ∨ cfg.maxSpreadBps < spreadBps then none
      else
        let isCrypto := is15minCryptoV1 marketSlug
        let usePostOnly := isCrypto || cfg.forcePostOnly
        let edge := spread * cfg.edgeFraction
        let recommendedPrice := bestBid + edge
        let recommendedSide := if recommendedPrice < midPrice then "BUY" else "SELL"
        some ⟨marketSlug, conditionId, spreadBps, bestBid, bestAsk, midPrice,
              isCrypto, recommendedSide, recommendedPrice, usePostOnly⟩

end Vulture

namespace OrderBook2

open RustDecimal

/-- No stored level of the side has `size == 0`. -/
def Side.noZeroSize (side : Side) : Bool :=
  side.levels.all (fun e => !e.size.isZero)

/-- Every level of the snapshot has a nonzero size. -/
def Snapshot.noZeroSize (snap : Snapshot) : Bool :=
  snap.bids.all (fun l => !l.size.isZero) && snap.asks.all (fun l => !l.size.isZero)

/-- A book-level operation whose snapshot (if it is one) has no zero-size
level. -/
def BookOp.snapOk : BookOp → Bool
  | .snapshot _ s => s.noZeroSize
  | .delta _ => true

end OrderBook2

namespace Scenario

open RustDecimal OrderBook2 Graph2 NegRisk2 Vulture

/-- Market node A (parent) at price 0.70 (spec §8, scenario 1). -/
def monoNodeA : MarketNode := ⟨"A", "tokA", "Market A", some ⟨70, 2⟩⟩

/-- Market node B (child) at price 0.80 (spec §8, scenario 1). -/
def monoNodeB : MarketNode := ⟨"B", "tokB", "Market B", some ⟨80, 2⟩⟩

/-- The scenario-1 graph under the default `min_edge_bps = 50`:
`A --Implies(w=1.0)--> B`. -/
def monoScanner50 : Scanner :=
  ((((Scanner.new 50).addMarket monoNodeA).addMarket monoNodeB).addRelationship
    "A" "B" .implies 1).1

/-- The same graph with the bps filter disabled (`min_edge_bps = 0`). -/
def monoScanner0 : Scanner :=
  ((((Scanner.new 0).addMarket monoNodeA).addMarket monoNodeB).addRelationship
    "A" "B" .implies 1).1

/-- The violation the code actually produces for scenario 1 (bps clamped
to 0 by the failed string parse). -/
def monoViolation : CorrelationViolation :=
  ⟨.monotonicity, "A", "B", ⟨70, 2⟩, ⟨80, 2⟩, "P(Child) <= P(Parent)", 0⟩

/-- Snapshot for outcome token t1: best bid 0.55, best ask 0.60. -/
def negSnapT1 : Snapshot := ⟨"t1", [⟨⟨55, 2⟩, ⟨100, 0⟩, 1⟩], [⟨⟨60, 2⟩, ⟨100, 0⟩, 1⟩], 0, 1⟩

/-- Snapshot for outcome token t2: best bid 0.55, best ask 0.60. -/
def negSnapT2 : Snapshot := ⟨"t2", [⟨⟨55, 2⟩, ⟨100, 0⟩, 1⟩], [⟨⟨60, 2⟩, ⟨100, 0⟩, 1⟩], 0, 1⟩

/-- Manager holding both outcome books of spec §8, scenario 4. -/
def negManager : Manager := ((Manager.mk []).loadSnapshot negSnapT1).loadSnapshot negSnapT2

/-- The two-outcome NegRisk market of spec §8, scenario 4. -/
def negMarket : NegRiskMarket := ⟨"c", ["t1", "t2"], ["Yes", "No"]⟩

/-- The collected best bids of scenario 4, as `check_mint_and_sell`
receives them. -/
def negBids : List (String × String × Option Dec) :=
  [("t1", "Yes", some ⟨55, 2⟩), ("t2", "No", some ⟨55, 2⟩)]

/-- A snapshot carrying an explicit zero-size bid level. -/
def zeroSizeSnap : Snapshot := ⟨"t", [⟨⟨1, 1⟩, Dec.zero, 3⟩], [], 5, 7⟩

/-- A delta for a token the `f64` manager has never seen. -/
def orphanDelta : OrderBook1.Delta := ⟨1 / 2, 100, "bid"⟩

/-- Snapshot with best bid 0.30 / best ask 0.40 (spread over bid =
3333.33… bps, a non-integer). -/
def spreadSnap : Snapshot := ⟨"t", [⟨⟨30, 2⟩, ⟨100, 0⟩, 1⟩], [⟨⟨40, 2⟩, ⟨100, 0⟩, 1⟩], 0, 1⟩

/-- Manager holding `spreadSnap`'s book. -/
def spreadMgr : Manager := (Manager.mk []).loadSnapshot spreadSnap

/-- The 15-minute crypto slug of spec §8, scenario 6. -/
def cryptoSlug : String := "btc-price-above-100k-15m"

/-- The default vulture configuration with only the upper spread bound
lifted (2500 bps) so that the 2000 bps scenario passes the band filter. -/
def relaxedVultureCfg : VultureConfig := ⟨50, 2500, 5 / 100, 25 / 100, false⟩

/-- The opportunity of spec §8, scenario 6 as the scan builds it:
price 0.475 = 19/40, BUY, POST_ONLY. -/
def cryptoOpp : MarketOpportunity :=
  ⟨cryptoSlug, "0x", 2000, 45 / 100, 55 / 100, 1 / 2, true, "BUY", 19 / 40, true⟩

/-- A book at sequence 10 (spec §8, scenario 7). -/
def seqBook : OrderBook := { OrderBook.new "t" with seq := 10 }

/-- A gapped delta at sequence 12. -/
def gapDelta : Delta := ⟨"t", [], [], 99, 12⟩

/-- A stale delta at sequence 9. -/
def staleDelta : Delta := ⟨"t", [], [], 99, 9⟩

/-- The in-sequence delta at sequence 11. -/
def okDelta : Delta := ⟨"t", [⟨⟨5, 1⟩, ⟨2, 0⟩⟩], [], 99, 11⟩

/-- A one-level ask half of the `f64` book (key 450000 = 0.45 · 10⁶). -/
def askHalf : OrderBook1.Half := ⟨[(450000, ⟨9 / 20, 100, 1⟩)], false⟩

/-- A small `f64` book: best bid 0.45, best ask 0.55 stored under their
6-decimal keys. -/
def fBook : OrderBook1.Orderbook :=
  ⟨"t", ⟨[(2 ^ 64 - 1 - 450000, ⟨9 / 20, 100, 1⟩)], true⟩,
   ⟨[(550000, ⟨11 / 20, 80, 1⟩)], false⟩, 0⟩

/-- Graph construction ops feeding an out-of-range correlation 1.5. -/
def clampOps : List Graph1.GraphOp :=
  [.addNode "a" "", .addNode "b" "", .addEdge "a" "b" (3 / 2)]

/-- Ops for the zero-size invariant witness: a clean snapshot, then a
delta that updates one level and removes another. -/
def cleanOps : List BookOp :=
  [.snapshot "t" ⟨"t", [⟨⟨45, 2⟩, ⟨100, 0⟩, 1⟩], [⟨⟨55, 2⟩, ⟨80, 0⟩, 1⟩], 1, 3⟩,
   .delta ⟨"t", [⟨⟨45, 2⟩, ⟨50, 0⟩⟩], [⟨⟨55, 2⟩, Dec.zero⟩], 2, 4⟩]

end Scenario

namespace OrderBook2

open RustDecimal

theorem obInsert_noZero (p sz : Dec) (c : ℕ) (hsz : sz.isZero = false)
    (l : List Entry) (h : l.all (fun e => !e.size.isZero) = true) :
    (obInsert p sz c l).all (fun e => !e.size.isZero) = true := by
  induction l with
  | nil => simp [obInsert, hsz]
  | cons e t ih =>
    simp only [List.all_cons, Bool.and_eq_true] at h
    by_cases h1 : p.lt e.price
    · simp [obInsert, h1, hsz, h.1, h.2]
    · by_cases h2 : p.eqv e.price
      · simp [obInsert, h1, h2, hsz, h.2]
      · simp [obInsert, h1, h2, h.1, ih h.2]

theorem obModifyOrInsert_noZero (p sz : Dec) (hsz : sz.isZero = false)
    (l : List Entry) (h : l.all (fun e => !e.size.isZero) = true) :
    (obModifyOrInsert p sz l).all (fun e => !e.size.isZero) = true := by
  induction l with
  | nil => simp [obModifyOrInsert, hsz]
  | cons e t ih =>
    simp only [List.all_cons, Bool.and_eq_true] at h
    by_cases h1 : p.lt e.price
    · simp [obModifyOrInsert, h1, hsz, h.1, h.2]
    · by_cases h2 : p.eqv e.price
      · simp [obModifyOrInsert, h1, h2, hsz, h.2]
      · simp [obModifyOrInsert, h1, h2, h.1, ih h.2]

theorem sideApplyDelta_noZero (side : Side) (p sz : Dec)
    (h : side.noZeroSize = true) : (side.applyDelta p sz).noZeroSize = true := by
  unfold Side.applyDelta Side.noZeroSize at *
  by_cases hz : sz.isZero = true
  · rw [if_pos hz]
    rw [List.all_eq_true] at h ⊢
    intro e he
    exact h e (List.mem_filter.mp he).1
  · rw [if_neg hz]
    exact obModifyOrInsert_noZero p sz (by simpa using hz) side.levels h

theorem foldUpdates_noZero (updates : List PriceUpdate) (side : Side)
    (h : side.noZeroSize = true) :
    (updates.foldl (fun s u => s.applyDelta u.price u.size) side).noZeroSize = true := by
  induction updates generalizing side with
  | nil => exact h
  | cons u t ih => exact ih _ (sideApplyDelta_noZero side u.price u.size h)

theorem foldInsert_noZero (levels : List PriceLevel) (acc : List Entry)
    (hacc : acc.all (fun e => !e.size.isZero) = true)
    (h : levels.all (fun l => !l.size.isZero) = true) :
    ((levels.foldl (fun l lv => obInsert lv.price lv.size 1 l) acc).all
      (fun e => !e.size.isZero)) = true := by
  induction levels generalizing acc with
  | nil => exact hacc
  | cons lv t ih =>
    simp only [List.all_cons, Bool.and_eq_true] at h
    exact ih _ (obInsert_noZero lv.price lv.size 1 (by simpa using h.1) acc hacc) h.2

theorem fromSnapshot_noZero (tid : String) (snap : Snapshot)
    (h : snap.noZeroSize = true) :
    (OrderBook.fromSnapshot tid snap).bids.noZeroSize = true ∧
    (OrderBook.fromSnapshot tid snap).asks.noZeroSize = true := by
  unfold Snapshot.noZeroSize at h
  rw [Bool.and_eq_true] at h
  exact ⟨foldInsert_noZero snap.bids [] rfl h.1, foldInsert_noZero snap.asks [] rfl h.2⟩

theorem applyDelta_noZero (b : OrderBook) (d : Delta)
    (h : b.bids.noZeroSize = true ∧ b.asks.noZeroSize = true) :
    (b.applyDelta d).2.bids.noZeroSize = true ∧
    (b.applyDelta d).2.asks.noZeroSize = true := by
  unfold OrderBook.applyDelta
  by_cases h1 : d.seq ≤ b.seq
  · rw [if_pos h1]; exact h
  · rw [if_neg h1]
    by_cases h2 : b.seq + 1 < d.seq
    · rw [if_pos h2]; exact h
    · rw [if_neg h2]
      exact ⟨foldUpdates_noZero _ _ h.1, foldUpdates_noZero _ _ h.2⟩

end OrderBook2

namespace OrderBook1

theorem keyToPrice_nonneg (isBid : Bool) (k : ℕ) : 0 ≤ keyToPrice isBid k := by
  unfold keyToPrice
  by_cases h : isBid = true
  · rw [if_pos h]; positivity
  · rw [if_neg h]; positivity

theorem bestPrice_nonneg (h : Half) (q : ℚ) (hq : h.bestPrice = some q) : 0 ≤ q := by
  unfold Half.bestPrice at hq
  rcases Option.map_eq_some'.mp hq with ⟨k, _, hk⟩
  exact hk ▸ keyToPrice_nonneg h.isBid k

theorem keyInsert_mem (k : ℕ) (v : PriceLevel) (l : List (ℕ × PriceLevel))
    (e : ℕ × PriceLevel) (he : e ∈ keyInsert k v l) : e = (k, v) ∨ e ∈ l := by
  induction l with
  | nil => simpa [keyInsert] using he
  | cons x t ih =>
    unfold keyInsert at he
    simp only [List.mem_cons]
    by_cases h1 : k < x.1
    · rw [if_pos h1] at he
      simp only [List.mem_cons] at he
      tauto
    · rw [if_neg h1] at he
      by_cases h2 : k = x.1
      · rw [if_pos h2] at he
        simp only [List.mem_cons] at he
        tauto
      · rw [if_neg h2] at he
        simp only [List.mem_cons] at he
        rcases he with he | he
        · tauto
        · rcases ih he with h | h <;> tauto

end OrderBook1

namespace Graph1

theorem clamp01_bounds (w : ℚ) : 0 ≤ clamp01 w ∧ clamp01 w ≤ 1 := by
  unfold clamp01
  split_ifs with h1 h2
  · norm_num
  · norm_num
  · constructor <;> linarith [not_lt.mp h1, not_lt.mp h2]

theorem runGraphOps_edges_bounded (ops : List GraphOp) :
    ∀ g : CorrelationDAG,
      (∀ e ∈ g.edges, 0 ≤ e.correlation ∧ e.correlation ≤ 1) →
      ∀ e ∈ (runGraphOps g ops).edges, 0 ≤ e.correlation ∧ e.correlation ≤ 1 := by
  induction ops with
  | nil => intro g hg; exact hg
  | cons op t ih =>
    intro g hg
    cases op with
    | addNode i d => exact ih _ hg
    | addEdge p c w =>
      refine ih _ ?_
      intro e he
      unfold CorrelationDAG.addEdge at he
      simp only [List.mem_append, List.mem_singleton] at he
      rcases he with he | he
      · exact hg e he
      · rw [he]
        exact clamp01_bounds w

end Graph1

/-- C1: the claim says every order's EIP-712 struct hash is computed from
the canonical Order type string.  The `sign_order` variant
(`signer 2.rs`) does hash exactly the canonical string, but the
`order_type_hash` constant of `signer.rs` hashes a string whose seventh
field reads `uint256 taker,` instead of `uint256 takerAmount,`, so its
type hash is keccak256 of a different string than the canonical one. -/
theorem claim1_order_type_string_typo :
    Signer.orderTypeStringV1 ≠ Signer.canonicalOrderTypeString ∧
    Signer.orderTypeStringV2 = Signer.canonicalOrderTypeString ∧
    (∀ keccak : String → List ℕ,
      Signer.orderTypeHashV1 keccak = keccak Signer.orderTypeStringV1 ∧
      Signer.orderTypeHashV2 keccak = keccak Signer.orderTypeStringV2) :=
  ⟨by decide, rfl, fun _ => ⟨rfl, rfl⟩⟩

/-- C2: for the graph `A --Implies(w=1.0)--> B` with prices `A = 0.70`,
`B = 0.80` the claim expects one violation with edge
`floor((0.80 − 0.70)/0.70 × 10000) = 1428` bps.  The code computes the
bps via `to_string().parse::<i32>().unwrap_or(0)`; the decimal string
`"1428.5714…"` fails the integer parse, so the edge is clamped to 0:
under the default `min_edge_bps = 50` the scan emits nothing at all, and
with the filter disabled it emits the violation with 0 bps (the Dutch
book direction LONG A / SHORT B does match the claim). -/
theorem claim2_monotonicity_scan_bps_clamped :
    Graph2.Scanner.scanViolations Scenario.monoScanner50 = [] ∧
    Graph2.Scanner.scanViolations Scenario.monoScanner0 = [Scenario.monoViolation] ∧
    Scenario.monoViolation.arbitrageEdgeBps = 0 ∧
    Graph2.Scanner.generateDutchBook Scenario.monoScanner0 Scenario.monoViolation =
      some ⟨"A", "tokA", "B", "tokB", 0⟩ := by decide

/-- C3: for bids `(0.55, 0.55)`, `fee_bps = 0`, `min_arb_bps = 30` the
claim expects an accepted MintAndSell with `profit_bps = 1000`.
`check_mint_and_sell` does trigger (Σbids = 1.10 > 1) and builds the two
SELL legs at 0.55, but its profit bps goes through
`to_string().parse::<i32>().unwrap_or(0)` on the decimal string
`"1000.0"`, which fails, so `expected_profit_bps = 0 < 30` and
`check_market` reports no opportunity.  The `f64` variant (`negrisk.rs`)
uses its hardcoded 2% fee and reports `profit_bps = 800`, not 1000. -/
theorem claim3_mint_and_sell_bps_clamped :
    NegRisk2.checkMarket NegRisk2.NegRiskConfig.default Scenario.negManager
      Scenario.negMarket = none ∧
    NegRisk2.checkMintAndSell NegRisk2.NegRiskConfig.default "c" Scenario.negBids =
      some ⟨.mintAndSell, "c", 0, RustDecimal.Dec.one, ⟨110, 2⟩,
        [⟨"t1", "Yes", "SELL", ⟨55, 2⟩, RustDecimal.Dec.one⟩,
         ⟨"t2", "No", "SELL", ⟨55, 2⟩, RustDecimal.Dec.one⟩]⟩ ∧
    (NegRisk1.scan NegRisk1.NegRiskConfig.default "c" [11 / 20, 11 / 20]
        [3 / 5, 3 / 5]).opportunityType = "MintAndSell" ∧
    (NegRisk1.scan NegRisk1.NegRiskConfig.default "c" [11 / 20, 11 / 20]
        [3 / 5, 3 / 5]).profitBps = 800 := by
  refine ⟨by decide, by decide, ?_, ?_⟩ <;>
    norm_num [NegRisk1.scan, NegRisk1.NegRiskConfig.default]

/-- C4: `OrderBook::apply_delta` returns `StaleUpdate` for
`delta.sequence ≤ sequence` and `SequenceGap` for
`delta.sequence > sequence + 1`, leaving the book untouched in both
cases; for `delta.sequence = sequence + 1` it succeeds, applies all bid
then ask updates, sets the sequence to the delta's (an increment by
exactly one) and the timestamp to the delta's. -/
theorem claim4_apply_delta_sequencing (b : OrderBook2.OrderBook)
    (d : OrderBook2.Delta) :
    (d.seq ≤ b.seq →
      b.applyDelta d = (.error (.staleUpdate (b.seq + 1) d.seq), b)) ∧
    (b.seq + 1 < d.seq →
      b.applyDelta d = (.error (.sequenceGap (b.seq + 1) d.seq), b)) ∧
    (d.seq = b.seq + 1 →
      (b.applyDelta d).1 = .ok () ∧
      (b.applyDelta d).2.seq = b.seq + 1 ∧
      (b.applyDelta d).2.lastUpdateTs = d.timestamp ∧
      (b.applyDelta d).2.bids =
        d.bidUpdates.foldl (fun s u => s.applyDelta u.price u.size) b.bids ∧
      (b.applyDelta d).2.asks =
        d.askUpdates.foldl (fun s u => s.applyDelta u.price u.size) b.asks ∧
      (b.applyDelta d).2.tokenId = b.tokenId) := by
  unfold OrderBook2.OrderBook.applyDelta
  refine ⟨fun h => ?_, fun h => ?_, fun h => ?_⟩
  · rw [if_pos h]
  · rw [if_neg (by omega), if_pos h]
  · rw [if_neg (by omega), if_neg (by omega)]
    exact ⟨rfl, by simp [h], rfl, rfl, rfl, rfl⟩

/-- C4 witness: a book at sequence 10 rejects a delta at sequence 12 with
`SequenceGap` (book unchanged), rejects sequence 9 with `StaleUpdate`,
and accepts sequence 11, moving to sequence 11 and timestamp 99. -/
theorem claim4_apply_delta_sequencing_witness :
    Scenario.seqBook.applyDelta Scenario.gapDelta =
      (.error (.sequenceGap 11 12), Scenario.seqBook) ∧
    Scenario.seqBook.applyDelta Scenario.staleDelta =
      (.error (.staleUpdate 11 9), Scenario.seqBook) ∧
    (Scenario.seqBook.applyDelta Scenario.okDelta).1 = .ok () ∧
    (Scenario.seqBook.applyDelta Scenario.okDelta).2.seq = 11 ∧
    (Scenario.seqBook.applyDelta Scenario.okDelta).2.lastUpdateTs = 99 :=
  ⟨(claim4_apply_delta_sequencing Scenario.seqBook Scenario.gapDelta).2.1 (by decide),
   (claim4_apply_delta_sequencing Scenario.seqBook Scenario.staleDelta).1 (by decide),
   ((claim4_apply_delta_sequencing Scenario.seqBook Scenario.okDelta).2.2 (by decide)).1,
   ((claim4_apply_delta_sequencing Scenario.seqBook Scenario.okDelta).2.2 (by decide)).2.1,
   ((claim4_apply_delta_sequencing Scenario.seqBook Scenario.okDelta).2.2 (by decide)).2.2.1⟩

/-- C5 counterexample: `OrderBook::from_snapshot` inserts snapshot levels
without filtering, so loading a snapshot whose bid level has `size == 0`
stores a zero-size level — the claimed invariant fails after this
one-snapshot sequence. -/
theorem claim5_zero_size_level_stored :
    (OrderBook2.OrderBook.fromSnapshot "t" Scenario.zeroSizeSnap).bids.levels =
      [⟨⟨1, 1⟩, RustDecimal.Dec.zero, 1⟩] ∧
    ∃ e ∈ (OrderBook2.OrderBook.fromSnapshot "t" Scenario.zeroSizeSnap).bids.levels,
      e.size.isZero := by decide

/-- C5 amended: provided every loaded snapshot is free of zero-size
levels, no stored price level has `size == 0` after any finite sequence
of snapshot loads and delta applications (delta updates with zero size
only remove levels). -/
theorem claim5_no_zero_size_amended (b : OrderBook2.OrderBook)
    (ops : List OrderBook2.BookOp)
    (hb : b.bids.noZeroSize = true ∧ b.asks.noZeroSize = true)
    (hops : ops.all OrderBook2.BookOp.snapOk = true) :
    (OrderBook2.runOps b ops).bids.noZeroSize = true ∧
    (OrderBook2.runOps b ops).asks.noZeroSize = true := by
  induction ops generalizing b with
  | nil => exact hb
  | cons op t ih =>
    simp only [List.all_cons, Bool.and_eq_true] at hops
    cases op with
    | snapshot tid snap =>
      exact ih _ (OrderBook2.fromSnapshot_noZero tid snap hops.1) hops.2
    | delta d =>
      exact ih _ (OrderBook2.applyDelta_noZero b d hb) hops.2

/-- C5 amended witness: after a clean snapshot followed by a delta that
rewrites one level and removes the other, no stored level has size 0. -/
theorem claim5_no_zero_size_amended_witness :
    (OrderBook2.runOps (OrderBook2.OrderBook.new "x") Scenario.cleanOps).bids.noZeroSize
      = true ∧
    (OrderBook2.runOps (OrderBook2.OrderBook.new "x") Scenario.cleanOps).asks.noZeroSize
      = true :=
  claim5_no_zero_size_amended (OrderBook2.OrderBook.new "x") Scenario.cleanOps
    (by decide) (by decide)

/-- C6 counterexample: the `f64`-path `OrderbookManager::apply_delta`
(`orderbook.rs`) goes through `get_or_create`, so a delta for a token
with no prior snapshot silently creates a book and mutates the manager —
no `TokenNotFound` error is possible (the function returns `()`). -/
theorem claim6_f64_manager_creates_book :
    (OrderBook1.Manager.applyDelta ⟨[]⟩ "tok" Scenario.orphanDelta).get "tok" ≠ none ∧
    (OrderBook1.Manager.mk []).get "tok" = none := by
  constructor
  · simp [OrderBook1.Manager.applyDelta, OrderBook1.Manager.getOrCreate,
      OrderBook1.Manager.get, OrderBook1.mgrInsert]
  · simp [OrderBook1.Manager.get]

/-- C6 amended: the `Decimal`-path `OrderBookManager::apply_delta`
(`orderbook 2.rs`) behaves as claimed — for a delta whose token has no
book it returns `TokenNotFound`, creates nothing, and leaves the manager
unchanged. -/
theorem claim6_token_not_found_amended (m : OrderBook2.Manager)
    (d : OrderBook2.Delta) (h : m.get d.tokenId = none) :
    m.applyDelta d = (.error (.tokenNotFound d.tokenId), m) := by
  unfold OrderBook2.Manager.applyDelta
  have hf : m.books.find? (fun e => e.1 = d.tokenId) = none := by
    unfold OrderBook2.Manager.get at h
    exact Option.map_eq_none'.mp h
  rw [hf]

/-- C6 amended witness: the empty `Decimal` manager rejects a delta for
token "tok" with `TokenNotFound` and is left unchanged. -/
theorem claim6_token_not_found_amended_witness :
    OrderBook2.Manager.applyDelta ⟨[]⟩ ⟨"tok", [], [], 0, 1⟩ =
      (.error (.tokenNotFound "tok"), (⟨[]⟩ : OrderBook2.Manager)) :=
  claim6_token_not_found_amended ⟨[]⟩ ⟨"tok", [], [], 0, 1⟩ (by decide)

/-- C7 counterexample: the `Decimal`-path `PyOrderbook::spread_bps`
(`orderbook 2.rs`) divides the spread by the best bid, not the mid, and
only returns a value when the decimal's string parses as a `u32`.  For a
book with best bid 0.30 / best ask 0.40 (both sides non-empty, mid =
0.35 ≠ 0) the claim demands `(0.40 − 0.30)/0.35 × 10000`, but the code
returns `None` (the string "3333.33…" fails the parse). -/
theorem claim7_decimal_spread_bps_counterexample :
    OrderBook2.pySpreadBps Scenario.spreadMgr "t" = none ∧
    (∃ b, Scenario.spreadMgr.get "t" = some b ∧
      b.bids.bestPrice true = some ⟨30, 2⟩ ∧ b.asks.bestPrice false = some ⟨40, 2⟩) ∧
    ((⟨30, 2⟩ : RustDecimal.Dec).toRat + (⟨40, 2⟩ : RustDecimal.Dec).toRat) / 2 ≠ 0 := by
  refine ⟨by decide,
    ⟨OrderBook2.OrderBook.fromSnapshot "t" Scenario.spreadSnap, by decide, by decide,
      by decide⟩, ?_⟩
  norm_num [RustDecimal.Dec.toRat]

/-- C7 amended: the `f64`-path `Orderbook::spread_bps` (`orderbook.rs`)
matches the claim — when both best prices exist and the mid is nonzero it
equals `(ask − bid) / mid × 10000`, and it is absent when either side is
empty or when the mid is zero. -/
theorem claim7_spread_bps_amended :
    (∀ (b : OrderBook1.Orderbook) (bid ask : ℚ),
      b.bids.bestPrice = some bid → b.asks.bestPrice = some ask →
      (bid + ask) / 2 ≠ 0 →
      b.spreadBps = some ((ask - bid) / ((bid + ask) / 2) * 10000)) ∧
    (∀ b : OrderBook1.Orderbook,
      b.bids.bestPrice = none ∨ b.asks.bestPrice = none → b.spreadBps = none) ∧
    (∀ (b : OrderBook1.Orderbook) (bid ask : ℚ),
      b.bids.bestPrice = some bid → b.asks.bestPrice = some ask →
      (bid + ask) / 2 = 0 → b.spreadBps = none) := by
  refine ⟨?_, ?_, ?_⟩
  · intro b bid ask hb ha hm
    have hbid : 0 ≤ bid := OrderBook1.bestPrice_nonneg _ _ hb
    have hask : 0 ≤ ask := OrderBook1.bestPrice_nonneg _ _ ha
    have h0 : (0 : ℚ) < (bid + ask) / 2 :=
      lt_of_le_of_ne (by linarith) (Ne.symm hm)
    simp [OrderBook1.Orderbook.spreadBps, hb, ha, h0]
    linarith
  · intro b h
    rcases h with h | h
    · simp [OrderBook1.Orderbook.spreadBps, h]
    · cases hb : b.bids.bestPrice <;> simp [OrderBook1.Orderbook.spreadBps, h, hb]
  · intro b bid ask hb ha hm
    simp [OrderBook1.Orderbook.spreadBps, hb, ha]
    linarith

/-- C7 amended witness: the `f64` book with best bid 0.45 / best ask 0.55
has `spread_bps = (0.55 − 0.45)/0.50 × 10000 = 2000`, and a book with an
empty bid side has no spread. -/
theorem claim7_spread_bps_amended_witness :
    Scenario.fBook.spreadBps = some 2000 ∧
    (OrderBook1.Orderbook.new "e").spreadBps = none := by
  constructor
  · have h1 : Scenario.fBook.bids.bestPrice = some (9 / 20) := by
      simp [OrderBook1.Half.bestPrice, Scenario.fBook, OrderBook1.keyToPrice]
      norm_num
    have h2 : Scenario.fBook.asks.bestPrice = some (11 / 20) := by
      simp [OrderBook1.Half.bestPrice, Scenario.fBook, OrderBook1.keyToPrice]
      norm_num
    rw [claim7_spread_bps_amended.1 Scenario.fBook (9 / 20) (11 / 20) h1 h2 (by norm_num)]
    norm_num
  · exact claim7_spread_bps_amended.2.1 _
      (Or.inl (by simp [OrderBook1.Orderbook.new, OrderBook1.Half.bestPrice]))

/-- C8: the claim expects `scan("btc-price-above-100k-15m", 0.45, 0.55)`
with `edge_fraction = 0.25` to yield price 0.475, BUY, POST_ONLY.  Under
the only configuration in the source (defaults `min_spread_bps = 50`,
`max_spread_bps = 500`), the scenario's spread of 2000 bps fails the band
filter and both scan variants return `None` — contradicting the module's
own tests, which assert `is_some` for these very inputs.  With the upper
band lifted the code produces exactly the claimed opportunity. -/
theorem claim8_vulture_scenario_default_rejected :
    Vulture.scanV2 Vulture.VultureConfig.default Scenario.cryptoSlug "0x"
      (45 / 100) (55 / 100) = none ∧
    Vulture.scanV1 Vulture.VultureConfig.default Scenario.cryptoSlug "0x"
      (45 / 100) (55 / 100) = none ∧
    Vulture.scanV2 Scenario.relaxedVultureCfg Scenario.cryptoSlug "0x"
      (45 / 100) (55 / 100) = some Scenario.cryptoOpp ∧
    Vulture.scanV1 Scenario.relaxedVultureCfg Scenario.cryptoSlug "0x"
      (45 / 100) (55 / 100) = some Scenario.cryptoOpp ∧
    Scenario.cryptoOpp.recommendedPrice = 19 / 40 ∧
    Scenario.cryptoOpp.recommendedSide = "BUY" ∧
    Scenario.cryptoOpp.usePostOnly = true := by
  have h2 : Vulture.is15minCryptoV2 Scenario.cryptoSlug = true := by decide
  have h1 : Vulture.is15minCryptoV1 Scenario.cryptoSlug = true := by decide
  refine ⟨?_, ?_, ?_, ?_, rfl, rfl, rfl⟩
  · norm_num [Vulture.scanV2, Vulture.VultureConfig.default]
  · norm_num [Vulture.scanV1, Vulture.VultureConfig.default]
  · norm_num [Vulture.scanV2, Scenario.relaxedVultureCfg, Scenario.cryptoOpp, h2]
  · norm_num [Vulture.scanV1, Scenario.relaxedVultureCfg, Scenario.cryptoOpp, h1]

/-- C9: in the `f64` order-book side, `apply_delta(price, size)` with any
`size ≤ 0` (zero or strictly negative) removes the level stored under
that price's key, and `apply_delta` never stores a level with
non-positive size: if every stored level has positive size, that still
holds after any `apply_delta`. -/
theorem claim9_nonpositive_size_removes :
    (∀ (h : OrderBook1.Half) (price size : ℚ), size ≤ 0 →
      h.applyDelta price size =
        ⟨h.levels.filter (fun e => e.1 ≠ OrderBook1.priceToKey h.isBid price),
         h.isBid⟩) ∧
    (∀ (h : OrderBook1.Half) (price size : ℚ),
      (∀ e ∈ h.levels, 0 < e.2.size) →
      ∀ e ∈ (h.applyDelta price size).levels, 0 < e.2.size) := by
  constructor
  · intro h price size hs
    unfold OrderBook1.Half.applyDelta
    rw [if_pos hs]
  · intro h price size hinv e he
    unfold OrderBook1.Half.applyDelta at he
    by_cases hs : size ≤ 0
    · rw [if_pos hs] at he
      exact hinv e (List.mem_filter.mp he).1
    · rw [if_neg hs] at he
      rcases OrderBook1.keyInsert_mem _ _ _ e he with heq | hmem
      · rw [heq]; simpa using lt_of_not_le hs
      · exact hinv e hmem

/-- C9 witness: deleting with size −1 at price 0.45 empties the
one-level ask half, and after an upsert of size 50 every stored level
still has positive size. -/
theorem claim9_nonpositive_size_removes_witness :
    (Scenario.askHalf.applyDelta (9 / 20) (-1)).levels = [] ∧
    ((Scenario.askHalf.applyDelta (11 / 20) 50).levels.all
      (fun e => decide (0 < e.2.size))) = true := by
  constructor
  · rw [claim9_nonpositive_size_removes.1 Scenario.askHalf (9 / 20) (-1) (by norm_num)]
    have hk : OrderBook1.priceToKey false (9 / 20) = 450000 := by
      simp [OrderBook1.priceToKey, OrderBook1.toU64]
      norm_num
      decide
    simp [Scenario.askHalf, hk]
  · have h2 := claim9_nonpositive_size_removes.2 Scenario.askHalf (11 / 20) 50
      (by intro e he; simp [Scenario.askHalf] at he; rw [he]; norm_num)
    rw [List.all_eq_true]
    intro e he
    simpa using h2 e he

/-- C10: `CorrelationDAG::add_edge` pushes the edge with the given
correlation clamped into `[0, 1]`, and after any sequence of
`add_node`/`add_edge` calls starting from the empty graph, every edge's
correlation lies within `[0, 1]`. -/
theorem claim10_correlation_clamped :
    (∀ (g : Graph1.CorrelationDAG) (p c : String) (w : ℚ),
      (g.addEdge p c w).edges = g.edges ++ [⟨p, c, Graph1.clamp01 w⟩] ∧
      0 ≤ Graph1.clamp01 w ∧ Graph1.clamp01 w ≤ 1) ∧
    (∀ (ops : List Graph1.GraphOp) (e : Graph1.Edge),
      e ∈ (Graph1.runGraphOps Graph1.CorrelationDAG.empty ops).edges →
      0 ≤ e.correlation ∧ e.correlation ≤ 1) := by
  constructor
  · intro g p c w
    exact ⟨rfl, Graph1.clamp01_bounds w⟩
  · intro ops e he
    exact Graph1.runGraphOps_edges_bounded ops Graph1.CorrelationDAG.empty
      (by simp [Graph1.CorrelationDAG.empty]) e he

/-- C10 witness: building two nodes and an edge with correlation 1.5
stores the clamped value, which lies in `[0, 1]` (and equals 1). -/
theorem claim10_correlation_clamped_witness :
    (0 ≤ (Graph1.Edge.mk "a" "b" (Graph1.clamp01 (3 / 2))).correlation ∧
      (Graph1.Edge.mk "a" "b" (Graph1.clamp01 (3 / 2))).correlation ≤ 1) ∧
    Graph1.clamp01 (3 / 2) = 1 := by
  constructor
  · refine claim10_correlation_clamped.2 Scenario.clampOps
      ⟨"a", "b", Graph1.clamp01 (3 / 2)⟩ ?_
    simp [Scenario.clampOps, Graph1.runGraphOps, Graph1.CorrelationDAG.empty,
      Graph1.CorrelationDAG.addNode, Graph1.CorrelationDAG.addEdge, Graph1.nodeInsert]
  · norm_num [Graph1.clamp01]
